import Mathlib

/-!
A shallow embedding of the erlang-mesos scheduler NIF bridge
(`c_src/scheduler_c_api.cpp` and `c_src/utils.hpp`), together with proofs
about its command facade, callback dispatcher and initialisation path.

Conventions of the embedding:
* `ErlNifBinary` buffers are byte lists (`List Nat`); a nullable
  `ErlNifBinary*` is an `Option (List Nat)` (`none` = NULL pointer).
  Arguments that the C code `assert`s non-NULL are given the plain list
  type.
* A protobuf message class is an abstract `PbMessage` interface (wire
  size, `SerializeToArray`, `ParseFromArray`); the protobuf library is an
  external dependency of the repository, so its own guarantees appear as
  explicit hypotheses where a theorem needs them.
* The C `deserialize` helpers return a `bool` and fill an out-reference;
  here the two are combined into an `Option` result.
* Each facade command returns the `SchedulerDriverStatus` paired with an
  `Option` recording the single call made into the native
  `MesosSchedulerDriver` (`none` when the driver was never invoked,
  `some args` when the decoded arguments were forwarded).
* Each callback returns the list of `enif_send` calls it performs, as
  (pid, term) pairs in execution order.
-/

/-- The status code vocabulary returned by the native driver and by the
bridge (`SchedulerDriverStatus` in the C sources: an integer code). -/
abbrev SchedulerDriverStatus := Int

/-- `#define DRIVER_ABORTED 3` from `scheduler_c_api.cpp`: the value every
facade command returns when one of its binary arguments fails to decode. -/
def DRIVER_ABORTED : SchedulerDriverStatus := 3

/-- Modelled from the spec: the native mesos driver status vocabulary
(not-started / running / stopped / aborted).  The mesos header that fixes
the numeric codes is not part of this repository; the spec states that the
bridge rejection value is "deliberately mapped to the same numeric space
as aborted", and the bridge macro for the rejection value is itself named
`DRIVER_ABORTED` and defined as `3`, so the native aborted code is `3`
(the native enum runs not-started = 1, running = 2, aborted = 3,
stopped = 4). -/
def nativeDriverStatuses : List SchedulerDriverStatus := [1, 2, 3, 4]

/-- Modelled from the spec: the native driver's own "aborted" status code
(see `nativeDriverStatuses`). -/
def nativeAborted : SchedulerDriverStatus := 3

/-- An external protobuf message class as the bridge's templates see it:
a wire size (`ByteSize`), a serializer (`SerializeToArray`) and a parser
(`ParseFromArray`, `none` on malformed input). -/
structure PbMessage (α : Type) where
  byteSize : α → Nat
  serialize : α → List Nat
  parse : List Nat → Option α

variable {α : Type}

/-- `obj.SerializeToArray(buf, size)`: the serialized bytes are written
into the buffer; the buffer keeps its size, and positions beyond the
serialized output keep their previous contents. -/
def serializeToArray (buffer src : List Nat) : List Nat :=
  src.take buffer.length ++ buffer.drop src.length

/-- `pb_obj_to_binary` from `utils.hpp`: allocate a binary of
`obj.ByteSize()` bytes and serialize the object into it. -/
def pb_obj_to_binary (M : PbMessage α) (obj : α) : List Nat :=
  serializeToArray (List.replicate (M.byteSize obj) 0) (M.serialize obj)

/-- `deserialize<T>(T& ret, void* data, size_t size)` from `utils.hpp`:
`ParseFromArray`, reporting failure (after a diagnostic print) instead of
raising past the decode boundary. -/
def deserialize_data (M : PbMessage α) (data : List Nat) : Option α :=
  M.parse data

/-- `deserialize<T>(T& ret, ErlNifBinary* obj)` from `utils.hpp`: a NULL
pointer is reported as a decode failure (no dereference); otherwise it
delegates to the data/size overload. -/
def deserialize_ptr (M : PbMessage α) (obj : Option (List Nat)) : Option α :=
  match obj with
  | none => none
  | some b => deserialize_data M b

/-- Modelled from the spec: the sequence-decoding `deserialize` overload
over `BinaryNifArray*` used by `scheduler_acceptOffers`,
`scheduler_requestResources`, `scheduler_reconcileTasks` and
`scheduler_launchTasks` is declared in headers (`erlang_mesos.hpp` /
`scheduler_c_api.hpp`) that are not among the provided sources; per the
spec it "accepts a list of byte sequences and decodes each independently,
failing the whole operation if any single element fails (no partial
results returned)". -/
def deserializeSeq (M : PbMessage α) : List (List Nat) → Option (List α)
  | [] => some []
  | b :: bs =>
    match M.parse b with
    | none => none
    | some x =>
      match deserializeSeq M bs with
      | none => none
      | some xs => some (x :: xs)

/-- `deserialize` used for effect only, as in `scheduler_init`: on success
the target object holds the parsed value; on failure it is left as
`resid` (whatever the parse left behind in the default-constructed
object), and the boolean result is discarded. -/
def parseInto (M : PbMessage α) (resid : α) (data : List Nat) : α :=
  match deserialize_data M data with
  | some v => v
  | none => resid

/-- Pointer-overload variant of `parseInto` (used for the credential in
`scheduler_init`). -/
def parseIntoPtr (M : PbMessage α) (resid : α) (obj : Option (List Nat)) : α :=
  match deserialize_ptr M obj with
  | some v => v
  | none => resid

/-- Erlang terms built by the callbacks through the `enif_make_*` API:
atoms, binaries, latin-1 strings, machine integers and small tuples. -/
inductive ErlTerm : Type where
  | atom (name : String)
  | binary (bytes : List Nat)
  | str (chars : String)
  | int (value : Int)
  | tuple1 (a : ErlTerm)
  | tuple2 (a b : ErlTerm)
  | tuple3 (a b c : ErlTerm)
  | tuple4 (a b c d : ErlTerm)

/-- The `CScheduler` callback-implementation instance: the framework
descriptor copy (`info`) and the controller pid (`ErlNifPid*`, modelled
as a `Nat` identity since the callbacks `assert` it non-NULL). -/
structure CScheduler (FrameworkInfo : Type) where
  info : FrameworkInfo
  pid : Nat

variable {FrameworkInfo Credential FrameworkID MasterInfo Offer : Type}
variable {OfferID Operation Filters TaskID ExecutorID SlaveID Request TaskStatus TaskInfo : Type}

/-- The constructor arguments handed to `new MesosSchedulerDriver(...)`
in `scheduler_init` (the first argument, the `CScheduler*` itself, is the
`scheduler` component of the returned pair): with or without a
credential. -/
inductive MesosSchedulerDriverCtor (FrameworkInfo Credential : Type) : Type where
  | withCred (info : FrameworkInfo) (master : String) (cred : Credential)
  | withoutCred (info : FrameworkInfo) (master : String)

/-- `SchedulerPtrPair`: the owned pair {native driver, callback instance}
returned by `scheduler_init`. -/
structure SchedulerPtrPair (FrameworkInfo Credential : Type) where
  driver : MesosSchedulerDriverCtor FrameworkInfo Credential
  scheduler : CScheduler FrameworkInfo

/-- `scheduler_init`: set the pid, deserialize the `FrameworkInfo` into
the scheduler instance (discarding the success flag), then construct the
native driver with or without the (likewise effect-only deserialized)
credential.  `info0` / `cred0` stand for the default-constructed C++
objects, i.e. what a failed parse leaves behind. -/
def scheduler_init (Mi : PbMessage FrameworkInfo) (Mc : PbMessage Credential)
    (info0 : FrameworkInfo) (cred0 : Credential)
    (pid : Nat) (info : List Nat) (master : String)
    (credentialssupplied : Bool) (credentials : Option (List Nat)) :
    SchedulerPtrPair FrameworkInfo Credential :=
  let scheduler : CScheduler FrameworkInfo :=
    { info := parseInto Mi info0 info, pid := pid }
  if credentialssupplied then
    { driver :=
        MesosSchedulerDriverCtor.withCred scheduler.info master
          (parseIntoPtr Mc cred0 credentials)
      scheduler := scheduler }
  else
    { driver := MesosSchedulerDriverCtor.withoutCred scheduler.info master
      scheduler := scheduler }

/-- `scheduler_acceptOffers`: decode the offer-id sequence, the operation
sequence and then the filters; any failure returns `DRIVER_ABORTED`
before the driver is touched, otherwise the call is forwarded to
`driver->acceptOffers`. -/
def scheduler_acceptOffers (Mo : PbMessage OfferID) (Mop : PbMessage Operation)
    (Mf : PbMessage Filters)
    (drv : List OfferID → List Operation → Filters → SchedulerDriverStatus)
    (offerIds operations : List (List Nat)) (filters : Option (List Nat)) :
    SchedulerDriverStatus × Option (List OfferID × List Operation × Filters) :=
  match deserializeSeq Mo offerIds with
  | none => (DRIVER_ABORTED, none)
  | some offerIds_ =>
    match deserializeSeq Mop operations with
    | none => (DRIVER_ABORTED, none)
    | some operations_ =>
      match deserialize_ptr Mf filters with
      | none => (DRIVER_ABORTED, none)
      | some filter_pb =>
        (drv offerIds_ operations_ filter_pb, some (offerIds_, operations_, filter_pb))

/-- `scheduler_declineOffer`: decode the offer id, then the filters; any
failure returns `DRIVER_ABORTED` before the driver is touched. -/
def scheduler_declineOffer (Mo : PbMessage OfferID) (Mf : PbMessage Filters)
    (drv : OfferID → Filters → SchedulerDriverStatus)
    (offerId : List Nat) (filters : Option (List Nat)) :
    SchedulerDriverStatus × Option (OfferID × Filters) :=
  match deserialize_data Mo offerId with
  | none => (DRIVER_ABORTED, none)
  | some offerid_pb =>
    match deserialize_ptr Mf filters with
    | none => (DRIVER_ABORTED, none)
    | some filter_pb => (drv offerid_pb filter_pb, some (offerid_pb, filter_pb))

/-- `scheduler_killTask`: decode the task id; on failure return
`DRIVER_ABORTED` without touching the driver, otherwise call
`driver->killTask` with the decoded id. -/
def scheduler_killTask (Mt : PbMessage TaskID)
    (drv : TaskID → SchedulerDriverStatus) (taskId : List Nat) :
    SchedulerDriverStatus × Option TaskID :=
  match deserialize_data Mt taskId with
  | none => (DRIVER_ABORTED, none)
  | some taskid_pb => (drv taskid_pb, some taskid_pb)

/-- `scheduler_sendFrameworkMessage`: decode the executor id and the
slave id; the raw `data` argument (a `const char*` C string) undergoes no
decode step and is handed to `driver->sendFrameworkMessage` verbatim. -/
def scheduler_sendFrameworkMessage (Me : PbMessage ExecutorID) (Ms : PbMessage SlaveID)
    (drv : ExecutorID → SlaveID → String → SchedulerDriverStatus)
    (executorId slaveId : List Nat) (data : String) :
    SchedulerDriverStatus × Option (ExecutorID × SlaveID × String) :=
  match deserialize_data Me executorId with
  | none => (DRIVER_ABORTED, none)
  | some executorid_pb =>
    match deserialize_data Ms slaveId with
    | none => (DRIVER_ABORTED, none)
    | some slaveid_pb =>
      (drv executorid_pb slaveid_pb data, some (executorid_pb, slaveid_pb, data))

/-- `scheduler_requestResources`: decode the request sequence; on failure
return `DRIVER_ABORTED` without touching the driver. -/
def scheduler_requestResources (Mr : PbMessage Request)
    (drv : List Request → SchedulerDriverStatus) (requests : List (List Nat)) :
    SchedulerDriverStatus × Option (List Request) :=
  match deserializeSeq Mr requests with
  | none => (DRIVER_ABORTED, none)
  | some requests_ => (drv requests_, some requests_)

/-- `scheduler_reconcileTasks`: decode the task-status sequence; on
failure return `DRIVER_ABORTED` without touching the driver. -/
def scheduler_reconcileTasks (Mts : PbMessage TaskStatus)
    (drv : List TaskStatus → SchedulerDriverStatus) (taskStatus : List (List Nat)) :
    SchedulerDriverStatus × Option (List TaskStatus) :=
  match deserializeSeq Mts taskStatus with
  | none => (DRIVER_ABORTED, none)
  | some taskStatus_ => (drv taskStatus_, some taskStatus_)

/-- `scheduler_launchTasks`: decode the offer id, the task-info sequence
and then the filters; any failure returns `DRIVER_ABORTED` before the
driver is touched, otherwise the call is forwarded to
`driver->launchTasks`. -/
def scheduler_launchTasks (Mo : PbMessage OfferID) (Mti : PbMessage TaskInfo)
    (Mf : PbMessage Filters)
    (drv : OfferID → List TaskInfo → Filters → SchedulerDriverStatus)
    (offerId : List Nat) (taskInfos : List (List Nat)) (filters : Option (List Nat)) :
    SchedulerDriverStatus × Option (OfferID × List TaskInfo × Filters) :=
  match deserialize_data Mo offerId with
  | none => (DRIVER_ABORTED, none)
  | some offerid_pb =>
    match deserializeSeq Mti taskInfos with
    | none => (DRIVER_ABORTED, none)
    | some taskInfo_ =>
      match deserialize_ptr Mf filters with
      | none => (DRIVER_ABORTED, none)
      | some filter_pb =>
        (drv offerid_pb taskInfo_ filter_pb, some (offerid_pb, taskInfo_, filter_pb))

/-- `CScheduler::registered`: one `{registered, FrameworkID, MasterInfo}`
tuple sent to the bound pid. -/
def CScheduler.registered (Mf : PbMessage FrameworkID) (Mm : PbMessage MasterInfo)
    (self : CScheduler FrameworkInfo) (frameworkId : FrameworkID)
    (masterInfo : MasterInfo) : List (Nat × ErlTerm) :=
  [(self.pid,
    ErlTerm.tuple3 (ErlTerm.atom "registered")
      (ErlTerm.binary (pb_obj_to_binary Mf frameworkId))
      (ErlTerm.binary (pb_obj_to_binary Mm masterInfo)))]

/-- `CScheduler::reregistered`: one `{reregistered, MasterInfo}` tuple
sent to the bound pid. -/
def CScheduler.reregistered (Mm : PbMessage MasterInfo)
    (self : CScheduler FrameworkInfo) (masterInfo : MasterInfo) :
    List (Nat × ErlTerm) :=
  [(self.pid,
    ErlTerm.tuple2 (ErlTerm.atom "reregistered")
      (ErlTerm.binary (pb_obj_to_binary Mm masterInfo)))]

/-- `CScheduler::disconnected`: one `{disconnected}` tuple sent to the
bound pid. -/
def CScheduler.disconnected (self : CScheduler FrameworkInfo) :
    List (Nat × ErlTerm) :=
  [(self.pid, ErlTerm.tuple1 (ErlTerm.atom "disconnected"))]

/-- `CScheduler::offerRescinded`: one `{offerRescinded, OfferID}` tuple
sent to the bound pid. -/
def CScheduler.offerRescinded (Mo : PbMessage OfferID)
    (self : CScheduler FrameworkInfo) (offerId : OfferID) :
    List (Nat × ErlTerm) :=
  [(self.pid,
    ErlTerm.tuple2 (ErlTerm.atom "offerRescinded")
      (ErlTerm.binary (pb_obj_to_binary Mo offerId)))]

/-- `CScheduler::statusUpdate`: one `{statusUpdate, TaskStatus}` tuple
sent to the bound pid. -/
def CScheduler.statusUpdate (Mts : PbMessage TaskStatus)
    (self : CScheduler FrameworkInfo) (status : TaskStatus) :
    List (Nat × ErlTerm) :=
  [(self.pid,
    ErlTerm.tuple2 (ErlTerm.atom "statusUpdate")
      (ErlTerm.binary (pb_obj_to_binary Mts status)))]

/-- `CScheduler::frameworkMessage`: one
`{frameworkMessage, ExecutorID, SlaveID, data}` tuple sent to the bound
pid (the data as a latin-1 string term). -/
def CScheduler.frameworkMessage (Me : PbMessage ExecutorID) (Ms : PbMessage SlaveID)
    (self : CScheduler FrameworkInfo) (executorId : ExecutorID)
    (slaveId : SlaveID) (data : String) : List (Nat × ErlTerm) :=
  [(self.pid,
    ErlTerm.tuple4 (ErlTerm.atom "frameworkMessage")
      (ErlTerm.binary (pb_obj_to_binary Me executorId))
      (ErlTerm.binary (pb_obj_to_binary Ms slaveId))
      (ErlTerm.str data))]

/-- `CScheduler::slaveLost`: one `{slaveLost, SlaveID}` tuple sent to the
bound pid. -/
def CScheduler.slaveLost (Ms : PbMessage SlaveID)
    (self : CScheduler FrameworkInfo) (slaveId : SlaveID) :
    List (Nat × ErlTerm) :=
  [(self.pid,
    ErlTerm.tuple2 (ErlTerm.atom "slaveLost")
      (ErlTerm.binary (pb_obj_to_binary Ms slaveId)))]

/-- `CScheduler::executorLost`: one
`{executorLost, ExecutorID, SlaveID, status}` tuple sent to the bound pid
(`status` via `enif_make_int`). -/
def CScheduler.executorLost (Me : PbMessage ExecutorID) (Ms : PbMessage SlaveID)
    (self : CScheduler FrameworkInfo) (executorId : ExecutorID)
    (slaveId : SlaveID) (status : Int) : List (Nat × ErlTerm) :=
  [(self.pid,
    ErlTerm.tuple4 (ErlTerm.atom "executorLost")
      (ErlTerm.binary (pb_obj_to_binary Me executorId))
      (ErlTerm.binary (pb_obj_to_binary Ms slaveId))
      (ErlTerm.int status))]

/-- `CScheduler::error`: one `{error, message}` tuple sent to the bound
pid (the message as a latin-1 string term). -/
def CScheduler.error (self : CScheduler FrameworkInfo) (errormessage : String) :
    List (Nat × ErlTerm) :=
  [(self.pid,
    ErlTerm.tuple2 (ErlTerm.atom "error") (ErlTerm.str errormessage))]

/-- The `for` loop of `CScheduler::resourceOffers`: starting at index
`i`, send one `{resourceOffers, Offer}` tuple per remaining offer, in
index order. -/
def resourceOffersLoop (Mo : PbMessage Offer) (pid : Nat) (offers : List Offer)
    (i : Nat) : List (Nat × ErlTerm) :=
  if h : i < offers.length then
    (pid,
      ErlTerm.tuple2 (ErlTerm.atom "resourceOffers")
        (ErlTerm.binary (pb_obj_to_binary Mo (offers.get ⟨i, h⟩)))) ::
      resourceOffersLoop Mo pid offers (i + 1)
  else []
termination_by offers.length - i

/-- `CScheduler::resourceOffers`: fan the offer list out, one message per
offer, all to the bound pid. -/
def CScheduler.resourceOffers (Mo : PbMessage Offer)
    (self : CScheduler FrameworkInfo) (offers : List Offer) :
    List (Nat × ErlTerm) :=
  resourceOffersLoop Mo self.pid offers 0

/-- A concrete single-byte-field message class used to instantiate the
generic embedding at concrete inputs: tag byte 8 (field 1, varint)
followed by one value byte, the shape of the simplest mesos id
messages. -/
def ByteValueMsg : PbMessage Nat where
  byteSize := fun _ => 2
  serialize := fun n => [8, n]
  parse := fun bs =>
    match bs with
    | [8, b] => some b
    | _ => none

/-- The buffer handed to `SerializeToArray` keeps its allocated size. -/
theorem serializeToArray_length (buffer src : List Nat) :
    (serializeToArray buffer src).length = buffer.length := by
  simp [serializeToArray]
  omega

/-- When the serialized output exactly fills the buffer (the protobuf
contract for a buffer allocated at `ByteSize`), the buffer afterwards is
exactly the serialized output. -/
theorem serializeToArray_exact (buffer src : List Nat)
    (h : src.length = buffer.length) : serializeToArray buffer src = src := by
  unfold serializeToArray
  rw [← h, List.take_length, List.drop_eq_nil_of_le (le_of_eq h.symm), List.append_nil]

/-- Sequence decoding fails as soon as any member of the list fails to
parse. -/
theorem deserializeSeq_eq_none_of_mem (M : PbMessage α) (bins : List (List Nat))
    (b : List Nat) (hb : b ∈ bins) (hp : M.parse b = none) :
    deserializeSeq M bins = none := by
  induction bins with
  | nil => cases hb
  | cons hd tl ih =>
    rcases List.mem_cons.mp hb with h | h
    · subst h
      unfold deserializeSeq
      rw [hp]
    · unfold deserializeSeq
      cases hph : M.parse hd with
      | none => rfl
      | some x => rw [ih h]

/-- The `resourceOffers` loop starting at index `i` sends exactly the
messages for the offers from index `i` on, in order. -/
theorem resourceOffersLoop_eq_drop_map (Mo : PbMessage Offer) (pid : Nat)
    (offers : List Offer) :
    ∀ n i, offers.length - i ≤ n →
      resourceOffersLoop Mo pid offers i =
        (offers.drop i).map (fun o =>
          (pid, ErlTerm.tuple2 (ErlTerm.atom "resourceOffers")
            (ErlTerm.binary (pb_obj_to_binary Mo o)))) := by
  intro n
  induction n with
  | zero =>
    intro i hi
    unfold resourceOffersLoop
    rw [dif_neg (by omega), List.drop_eq_nil_of_le (by omega)]
    rfl
  | succ n ih =>
    intro i hi
    unfold resourceOffersLoop
    by_cases h : i < offers.length
    · rw [dif_pos h, ih (i + 1) (by omega),
        List.drop_eq_getElem_cons h, List.map_cons]
      simp [List.get_eq_getElem]
    · rw [dif_neg h, List.drop_eq_nil_of_le (by omega)]
      rfl

/-- Claim C1: every command facade operation decodes its binary arguments
first; if any decode fails it returns the bridge rejection status
`DRIVER_ABORTED` with no call made into the native driver, and if all
decodes succeed it forwards exactly the decoded arguments to the native
driver and returns the driver's reported status unchanged. -/
theorem facade_reject_or_forward
    (Mo : PbMessage OfferID) (Mop : PbMessage Operation) (Mf : PbMessage Filters)
    (Mt : PbMessage TaskID) (Me : PbMessage ExecutorID) (Ms : PbMessage SlaveID)
    (Mr : PbMessage Request) (Mts : PbMessage TaskStatus) (Mti : PbMessage TaskInfo)
    (drvAccept : List OfferID → List Operation → Filters → SchedulerDriverStatus)
    (drvDecline : OfferID → Filters → SchedulerDriverStatus)
    (drvKill : TaskID → SchedulerDriverStatus)
    (drvSend : ExecutorID → SlaveID → String → SchedulerDriverStatus)
    (drvRequest : List Request → SchedulerDriverStatus)
    (drvReconcile : List TaskStatus → SchedulerDriverStatus)
    (drvLaunch : OfferID → List TaskInfo → Filters → SchedulerDriverStatus) :
    (∀ (offerIds operations : List (List Nat)) (filters : Option (List Nat)),
       deserializeSeq Mo offerIds = none →
       scheduler_acceptOffers Mo Mop Mf drvAccept offerIds operations filters =
         (DRIVER_ABORTED, none)) ∧
    (∀ (offerIds operations : List (List Nat)) (filters : Option (List Nat)),
       deserializeSeq Mop operations = none →
       scheduler_acceptOffers Mo Mop Mf drvAccept offerIds operations filters =
         (DRIVER_ABORTED, none)) ∧
    (∀ (offerIds operations : List (List Nat)) (filters : Option (List Nat)),
       deserialize_ptr Mf filters = none →
       scheduler_acceptOffers Mo Mop Mf drvAccept offerIds operations filters =
         (DRIVER_ABORTED, none)) ∧
    (∀ (offerIds operations : List (List Nat)) (filters : Option (List Nat))
       (os : List OfferID) (ops : List Operation) (f : Filters),
       deserializeSeq Mo offerIds = some os →
       deserializeSeq Mop operations = some ops →
       deserialize_ptr Mf filters = some f →
       scheduler_acceptOffers Mo Mop Mf drvAccept offerIds operations filters =
         (drvAccept os ops f, some (os, ops, f))) ∧
    (∀ (offerId : List Nat) (filters : Option (List Nat)),
       deserialize_data Mo offerId = none →
       scheduler_declineOffer Mo Mf drvDecline offerId filters =
         (DRIVER_ABORTED, none)) ∧
    (∀ (offerId : List Nat) (filters : Option (List Nat)),
       deserialize_ptr Mf filters = none →
       scheduler_declineOffer Mo Mf drvDecline offerId filters =
         (DRIVER_ABORTED, none)) ∧
    (∀ (offerId : List Nat) (filters : Option (List Nat)) (o : OfferID) (f : Filters),
       deserialize_data Mo offerId = some o →
       deserialize_ptr Mf filters = some f →
       scheduler_declineOffer Mo Mf drvDecline offerId filters =
         (drvDecline o f, some (o, f))) ∧
    (∀ (taskId : List Nat),
       deserialize_data Mt taskId = none →
       scheduler_killTask Mt drvKill taskId = (DRIVER_ABORTED, none)) ∧
    (∀ (taskId : List Nat) (t : TaskID),
       deserialize_data Mt taskId = some t →
       scheduler_killTask Mt drvKill taskId = (drvKill t, some t)) ∧
    (∀ (executorId slaveId : List Nat) (data : String),
       deserialize_data Me executorId = none →
       scheduler_sendFrameworkMessage Me Ms drvSend executorId slaveId data =
         (DRIVER_ABORTED, none)) ∧
    (∀ (executorId slaveId : List Nat) (data : String),
       deserialize_data Ms slaveId = none →
       scheduler_sendFrameworkMessage Me Ms drvSend executorId slaveId data =
         (DRIVER_ABORTED, none)) ∧
    (∀ (executorId slaveId : List Nat) (data : String) (e : ExecutorID) (s : SlaveID),
       deserialize_data Me executorId = some e →
       deserialize_data Ms slaveId = some s →
       scheduler_sendFrameworkMessage Me Ms drvSend executorId slaveId data =
         (drvSend e s data, some (e, s, data))) ∧
    (∀ (requests : List (List Nat)),
       deserializeSeq Mr requests = none →
       scheduler_requestResources Mr drvRequest requests = (DRIVER_ABORTED, none)) ∧
    (∀ (requests : List (List Nat)) (rs : List Request),
       deserializeSeq Mr requests = some rs →
       scheduler_requestResources Mr drvRequest requests = (drvRequest rs, some rs)) ∧
    (∀ (taskStatus : List (List Nat)),
       deserializeSeq Mts taskStatus = none →
       scheduler_reconcileTasks Mts drvReconcile taskStatus = (DRIVER_ABORTED, none)) ∧
    (∀ (taskStatus : List (List Nat)) (ts : List TaskStatus),
       deserializeSeq Mts taskStatus = some ts →
       scheduler_reconcileTasks Mts drvReconcile taskStatus = (drvReconcile ts, some ts)) ∧
    (∀ (offerId : List Nat) (taskInfos : List (List Nat)) (filters : Option (List Nat)),
       deserialize_data Mo offerId = none →
       scheduler_launchTasks Mo Mti Mf drvLaunch offerId taskInfos filters =
         (DRIVER_ABORTED, none)) ∧
    (∀ (offerId : List Nat) (taskInfos : List (List Nat)) (filters : Option (List Nat)),
       deserializeSeq Mti taskInfos = none →
       scheduler_launchTasks Mo Mti Mf drvLaunch offerId taskInfos filters =
         (DRIVER_ABORTED, none)) ∧
    (∀ (offerId : List Nat) (taskInfos : List (List Nat)) (filters : Option (List Nat)),
       deserialize_ptr Mf filters = none →
       scheduler_launchTasks Mo Mti Mf drvLaunch offerId taskInfos filters =
         (DRIVER_ABORTED, none)) ∧
    (∀ (offerId : List Nat) (taskInfos : List (List Nat)) (filters : Option (List Nat))
       (o : OfferID) (ts : List TaskInfo) (f : Filters),
       deserialize_data Mo offerId = some o →
       deserializeSeq Mti taskInfos = some ts →
       deserialize_ptr Mf filters = some f →
       scheduler_launchTasks Mo Mti Mf drvLaunch offerId taskInfos filters =
         (drvLaunch o ts f, some (o, ts, f))) := by
  refine ⟨?_, ?_, ?_, ?_, ?_, ?_, ?_, ?_, ?_, ?_, ?_, ?_, ?_, ?_, ?_, ?_, ?_, ?_, ?_, ?_⟩
  · intro offerIds operations filters h
    unfold scheduler_acceptOffers
    rw [h]
  · intro offerIds operations filters h
    unfold scheduler_acceptOffers
    cases hO : deserializeSeq Mo offerIds with
    | none => rfl
    | some os => rw [h]
  · intro offerIds operations filters h
    unfold scheduler_acceptOffers
    cases hO : deserializeSeq Mo offerIds with
    | none => rfl
    | some os =>
      cases hOp : deserializeSeq Mop operations with
      | none => rfl
      | some ops => rw [h]
  · intro offerIds operations filters os ops f h1 h2 h3
    unfold scheduler_acceptOffers
    rw [h1, h2, h3]
  · intro offerId filters h
    unfold scheduler_declineOffer
    rw [h]
  · intro offerId filters h
    unfold scheduler_declineOffer
    cases hO : deserialize_data Mo offerId with
    | none => rfl
    | some o => rw [h]
  · intro offerId filters o f h1 h2
    unfold scheduler_declineOffer
    rw [h1, h2]
  · intro taskId h
    unfold scheduler_killTask
    rw [h]
  · intro taskId t h
    unfold scheduler_killTask
    rw [h]
  · intro executorId slaveId data h
    unfold scheduler_sendFrameworkMessage
    rw [h]
  · intro executorId slaveId data h
    unfold scheduler_sendFrameworkMessage
    cases hE : deserialize_data Me executorId with
    | none => rfl
    | some e => rw [h]
  · intro executorId slaveId data e s h1 h2
    unfold scheduler_sendFrameworkMessage
    rw [h1, h2]
  · intro requests h
    unfold scheduler_requestResources
    rw [h]
  · intro requests rs h
    unfold scheduler_requestResources
    rw [h]
  · intro taskStatus h
    unfold scheduler_reconcileTasks
    rw [h]
  · intro taskStatus ts h
    unfold scheduler_reconcileTasks
    rw [h]
  · intro offerId taskInfos filters h
    unfold scheduler_launchTasks
    rw [h]
  · intro offerId taskInfos filters h
    unfold scheduler_launchTasks
    cases hO : deserialize_data Mo offerId with
    | none => rfl
    | some o => rw [h]
  · intro offerId taskInfos filters h
    unfold scheduler_launchTasks
    cases hO : deserialize_data Mo offerId with
    | none => rfl
    | some o =>
      cases hT : deserializeSeq Mti taskInfos with
      | none => rfl
      | some ts => rw [h]
  · intro offerId taskInfos filters o ts f h1 h2 h3
    unfold scheduler_launchTasks
    rw [h1, h2, h3]

/-- Concrete instances of `facade_reject_or_forward`: each rejection and
forwarding clause evaluated at explicit byte sequences. -/
theorem facade_reject_or_forward_witness :
    scheduler_acceptOffers ByteValueMsg ByteValueMsg ByteValueMsg (fun _ _ _ => 2)
      [[9]] [] (some [8, 1]) = (DRIVER_ABORTED, none) ∧
    scheduler_acceptOffers ByteValueMsg ByteValueMsg ByteValueMsg (fun _ _ _ => 2)
      [[8, 1]] [[9]] (some [8, 1]) = (DRIVER_ABORTED, none) ∧
    scheduler_acceptOffers ByteValueMsg ByteValueMsg ByteValueMsg (fun _ _ _ => 2)
      [[8, 1]] [[8, 2]] (some [9]) = (DRIVER_ABORTED, none) ∧
    scheduler_acceptOffers ByteValueMsg ByteValueMsg ByteValueMsg (fun _ _ _ => 2)
      [[8, 1]] [[8, 2]] (some [8, 3]) = (2, some ([1], [2], 3)) ∧
    scheduler_declineOffer ByteValueMsg ByteValueMsg (fun _ _ => 2)
      [9] (some [8, 1]) = (DRIVER_ABORTED, none) ∧
    scheduler_declineOffer ByteValueMsg ByteValueMsg (fun _ _ => 2)
      [8, 1] (some [9]) = (DRIVER_ABORTED, none) ∧
    scheduler_declineOffer ByteValueMsg ByteValueMsg (fun _ _ => 2)
      [8, 1] (some [8, 2]) = (2, some (1, 2)) ∧
    scheduler_killTask ByteValueMsg (fun _ => 2) [9] = (DRIVER_ABORTED, none) ∧
    scheduler_killTask ByteValueMsg (fun _ => 2) [8, 5] = (2, some 5) ∧
    scheduler_sendFrameworkMessage ByteValueMsg ByteValueMsg (fun _ _ _ => 2)
      [9] [8, 1] "d" = (DRIVER_ABORTED, none) ∧
    scheduler_sendFrameworkMessage ByteValueMsg ByteValueMsg (fun _ _ _ => 2)
      [8, 1] [9] "d" = (DRIVER_ABORTED, none) ∧
    scheduler_sendFrameworkMessage ByteValueMsg ByteValueMsg (fun _ _ _ => 2)
      [8, 1] [8, 2] "d" = (2, some (1, 2, "d")) ∧
    scheduler_requestResources ByteValueMsg (fun _ => 2) [[9]] = (DRIVER_ABORTED, none) ∧
    scheduler_requestResources ByteValueMsg (fun _ => 2) [[8, 1]] = (2, some [1]) ∧
    scheduler_reconcileTasks ByteValueMsg (fun _ => 2) [[9]] = (DRIVER_ABORTED, none) ∧
    scheduler_reconcileTasks ByteValueMsg (fun _ => 2) [[8, 4]] = (2, some [4]) ∧
    scheduler_launchTasks ByteValueMsg ByteValueMsg ByteValueMsg (fun _ _ _ => 2)
      [9] [[8, 1]] (some [8, 2]) = (DRIVER_ABORTED, none) ∧
    scheduler_launchTasks ByteValueMsg ByteValueMsg ByteValueMsg (fun _ _ _ => 2)
      [8, 1] [[9]] (some [8, 2]) = (DRIVER_ABORTED, none) ∧
    scheduler_launchTasks ByteValueMsg ByteValueMsg ByteValueMsg (fun _ _ _ => 2)
      [8, 1] [[8, 2]] (some [9]) = (DRIVER_ABORTED, none) ∧
    scheduler_launchTasks ByteValueMsg ByteValueMsg ByteValueMsg (fun _ _ _ => 2)
      [8, 1] [[8, 2]] (some [8, 3]) = (2, some (1, [2], 3)) := by
  obtain ⟨hA1, hA2, hA3, hA4, hD1, hD2, hD3, hK1, hK2, hS1, hS2, hS3, hR1, hR2,
      hT1, hT2, hL1, hL2, hL3, hL4⟩ :=
    facade_reject_or_forward ByteValueMsg ByteValueMsg ByteValueMsg ByteValueMsg
      ByteValueMsg ByteValueMsg ByteValueMsg ByteValueMsg ByteValueMsg
      (fun _ _ _ => 2) (fun _ _ => 2) (fun _ => 2) (fun _ _ _ => 2)
      (fun _ => 2) (fun _ => 2) (fun _ _ _ => 2)
  exact ⟨hA1 _ _ _ rfl, hA2 _ _ _ rfl, hA3 _ _ _ rfl, hA4 _ _ _ _ _ _ rfl rfl rfl,
    hD1 _ _ rfl, hD2 _ _ rfl, hD3 _ _ _ _ rfl rfl,
    hK1 _ rfl, hK2 _ _ rfl,
    hS1 _ _ _ rfl, hS2 _ _ _ rfl, hS3 _ _ _ _ _ rfl rfl,
    hR1 _ rfl, hR2 _ _ rfl, hT1 _ rfl, hT2 _ _ rfl,
    hL1 _ _ _ rfl, hL2 _ _ _ rfl, hL3 _ _ _ rfl, hL4 _ _ _ _ _ _ rfl rfl rfl⟩

/-- Claim C2 counterexample: the bridge rejection value is NOT distinct
from the native driver's status vocabulary — it is exactly the native
aborted code. -/
theorem rejection_status_not_distinct :
    DRIVER_ABORTED = nativeAborted ∧ DRIVER_ABORTED ∈ nativeDriverStatuses := by
  constructor
  · rfl
  · decide

/-- Claim C2 (amended): the bridge-local rejection status returned by a
command whose argument fails to decode is the same numeric value as the
native aborted status (3), i.e. it lies inside the native status space
rather than outside it. -/
theorem rejection_status_is_native_aborted (Mt : PbMessage TaskID)
    (drv : TaskID → SchedulerDriverStatus) (taskId : List Nat)
    (h : deserialize_data Mt taskId = none) :
    DRIVER_ABORTED = nativeAborted ∧ DRIVER_ABORTED ∈ nativeDriverStatuses ∧
    (scheduler_killTask Mt drv taskId).1 = nativeAborted := by
  refine ⟨rfl, by decide, ?_⟩
  unfold scheduler_killTask
  rw [h]
  rfl

/-- Concrete instance of `rejection_status_is_native_aborted` at a
malformed task id. -/
theorem rejection_status_is_native_aborted_witness :
    DRIVER_ABORTED = nativeAborted ∧ DRIVER_ABORTED ∈ nativeDriverStatuses ∧
    (scheduler_killTask ByteValueMsg (fun _ => 2) [9]).1 = nativeAborted :=
  rejection_status_is_native_aborted ByteValueMsg (fun _ => 2) [9] rfl

/-- Claim C3: for every message class satisfying the protobuf library
contract at `x` (serialized length equals the wire size, and the library
parses its own output back), decoding the byte sequence produced by
`pb_obj_to_binary` yields `x` again, and the produced binary's size
equals `x`'s wire size. -/
theorem codec_round_trip (M : PbMessage α) (x : α)
    (hsize : (M.serialize x).length = M.byteSize x)
    (hparse : M.parse (M.serialize x) = some x) :
    deserialize_data M (pb_obj_to_binary M x) = some x ∧
    (pb_obj_to_binary M x).length = M.byteSize x := by
  have hbuf : pb_obj_to_binary M x = M.serialize x := by
    unfold pb_obj_to_binary
    exact serializeToArray_exact _ _ (by simp [hsize])
  constructor
  · unfold deserialize_data
    rw [hbuf]
    exact hparse
  · unfold pb_obj_to_binary
    rw [serializeToArray_length]
    simp

/-- Concrete instance of `codec_round_trip` for the two-byte message. -/
theorem codec_round_trip_witness :
    deserialize_data ByteValueMsg (pb_obj_to_binary ByteValueMsg 5) = some 5 ∧
    (pb_obj_to_binary ByteValueMsg 5).length = ByteValueMsg.byteSize 5 :=
  codec_round_trip ByteValueMsg 5 rfl rfl

/-- Claim C4: sequence decoding is all-or-nothing: if the element at any
position `k` of a sequence argument fails to decode, the whole command
returns the rejection status and makes no call into the native driver —
in particular no element of the sequence (not even the ones before `k`
that decoded fine) is forwarded. -/
theorem seq_decode_all_or_nothing
    (Mo : PbMessage OfferID) (Mop : PbMessage Operation) (Mf : PbMessage Filters)
    (Mr : PbMessage Request) (Mts : PbMessage TaskStatus) (Mti : PbMessage TaskInfo)
    (drvAccept : List OfferID → List Operation → Filters → SchedulerDriverStatus)
    (drvRequest : List Request → SchedulerDriverStatus)
    (drvReconcile : List TaskStatus → SchedulerDriverStatus)
    (drvLaunch : OfferID → List TaskInfo → Filters → SchedulerDriverStatus) :
    (∀ (offerIds operations : List (List Nat)) (filters : Option (List Nat))
       (k : Nat) (b : List Nat),
       offerIds.get? k = some b → Mo.parse b = none →
       scheduler_acceptOffers Mo Mop Mf drvAccept offerIds operations filters =
         (DRIVER_ABORTED, none)) ∧
    (∀ (offerIds operations : List (List Nat)) (filters : Option (List Nat))
       (k : Nat) (b : List Nat),
       operations.get? k = some b → Mop.parse b = none →
       scheduler_acceptOffers Mo Mop Mf drvAccept offerIds operations filters =
         (DRIVER_ABORTED, none)) ∧
    (∀ (requests : List (List Nat)) (k : Nat) (b : List Nat),
       requests.get? k = some b → Mr.parse b = none →
       scheduler_requestResources Mr drvRequest requests = (DRIVER_ABORTED, none)) ∧
    (∀ (taskStatus : List (List Nat)) (k : Nat) (b : List Nat),
       taskStatus.get? k = some b → Mts.parse b = none →
       scheduler_reconcileTasks Mts drvReconcile taskStatus = (DRIVER_ABORTED, none)) ∧
    (∀ (offerId : List Nat) (taskInfos : List (List Nat)) (filters : Option (List Nat))
       (k : Nat) (b : List Nat),
       taskInfos.get? k = some b → Mti.parse b = none →
       scheduler_launchTasks Mo Mti Mf drvLaunch offerId taskInfos filters =
         (DRIVER_ABORTED, none)) := by
  refine ⟨?_, ?_, ?_, ?_, ?_⟩
  · intro offerIds operations filters k b hk hp
    have hseq := deserializeSeq_eq_none_of_mem Mo offerIds b (List.get?_mem hk) hp
    unfold scheduler_acceptOffers
    rw [hseq]
  · intro offerIds operations filters k b hk hp
    have hseq := deserializeSeq_eq_none_of_mem Mop operations b (List.get?_mem hk) hp
    unfold scheduler_acceptOffers
    cases hO : deserializeSeq Mo offerIds with
    | none => rfl
    | some os => rw [hseq]
  · intro requests k b hk hp
    have hseq := deserializeSeq_eq_none_of_mem Mr requests b (List.get?_mem hk) hp
    unfold scheduler_requestResources
    rw [hseq]
  · intro taskStatus k b hk hp
    have hseq := deserializeSeq_eq_none_of_mem Mts taskStatus b (List.get?_mem hk) hp
    unfold scheduler_reconcileTasks
    rw [hseq]
  · intro offerId taskInfos filters k b hk hp
    have hseq := deserializeSeq_eq_none_of_mem Mti taskInfos b (List.get?_mem hk) hp
    unfold scheduler_launchTasks
    cases hO : deserialize_data Mo offerId with
    | none => rfl
    | some o => rw [hseq]

/-- Concrete instances of `seq_decode_all_or_nothing`: in each sequence
the element at position 1 is malformed while the element at position 0 is
well-formed. -/
theorem seq_decode_all_or_nothing_witness :
    scheduler_acceptOffers ByteValueMsg ByteValueMsg ByteValueMsg (fun _ _ _ => 2)
      [[8, 1], [9]] [] (some [8, 1]) = (DRIVER_ABORTED, none) ∧
    scheduler_acceptOffers ByteValueMsg ByteValueMsg ByteValueMsg (fun _ _ _ => 2)
      [[8, 1]] [[8, 2], [9]] (some [8, 1]) = (DRIVER_ABORTED, none) ∧
    scheduler_requestResources ByteValueMsg (fun _ => 2) [[8, 1], [9]] =
      (DRIVER_ABORTED, none) ∧
    scheduler_reconcileTasks ByteValueMsg (fun _ => 2) [[8, 1], [9]] =
      (DRIVER_ABORTED, none) ∧
    scheduler_launchTasks ByteValueMsg ByteValueMsg ByteValueMsg (fun _ _ _ => 2)
      [8, 1] [[8, 2], [9]] (some [8, 3]) = (DRIVER_ABORTED, none) := by
  obtain ⟨h1, h2, h3, h4, h5⟩ :=
    seq_decode_all_or_nothing ByteValueMsg ByteValueMsg ByteValueMsg ByteValueMsg
      ByteValueMsg ByteValueMsg
      (fun _ _ _ => 2) (fun _ => 2) (fun _ => 2) (fun _ _ _ => 2)
  exact ⟨h1 _ _ _ 1 _ rfl rfl, h2 _ _ _ 1 _ rfl rfl, h3 _ 1 _ rfl rfl,
    h4 _ 1 _ rfl rfl, h5 _ _ _ 1 _ rfl rfl⟩

/-- Claim C5: the `resourceOffers` callback fans `m` offers out into
exactly `m` outbound messages, each tagged `resourceOffers` and carrying
exactly one encoded offer, to the bound pid, in the order of the input
list (an empty list produces zero messages). -/
theorem resourceOffers_fanout (Mo : PbMessage Offer)
    (self : CScheduler FrameworkInfo) (offers : List Offer) :
    CScheduler.resourceOffers Mo self offers =
      offers.map (fun o =>
        (self.pid, ErlTerm.tuple2 (ErlTerm.atom "resourceOffers")
          (ErlTerm.binary (pb_obj_to_binary Mo o)))) ∧
    (CScheduler.resourceOffers Mo self offers).length = offers.length := by
  have h := resourceOffersLoop_eq_drop_map Mo self.pid offers offers.length 0 (by omega)
  constructor
  · unfold CScheduler.resourceOffers
    rw [h, List.drop_zero]
  · unfold CScheduler.resourceOffers
    rw [h, List.drop_zero, List.length_map]

/-- Claim C7: every scheduler event other than `resourceOffers` builds
exactly one outbound message, tagged with the event's name, carrying
exactly the entities of the event table, and sends it to the bound
controller pid. -/
theorem dispatcher_one_message_per_event
    (Mf : PbMessage FrameworkID) (Mm : PbMessage MasterInfo) (Mo : PbMessage OfferID)
    (Mts : PbMessage TaskStatus) (Me : PbMessage ExecutorID) (Ms : PbMessage SlaveID)
    (self : CScheduler FrameworkInfo) :
    (∀ (frameworkId : FrameworkID) (masterInfo : MasterInfo),
       CScheduler.registered Mf Mm self frameworkId masterInfo =
         [(self.pid, ErlTerm.tuple3 (ErlTerm.atom "registered")
            (ErlTerm.binary (pb_obj_to_binary Mf frameworkId))
            (ErlTerm.binary (pb_obj_to_binary Mm masterInfo)))]) ∧
    (∀ (masterInfo : MasterInfo),
       CScheduler.reregistered Mm self masterInfo =
         [(self.pid, ErlTerm.tuple2 (ErlTerm.atom "reregistered")
            (ErlTerm.binary (pb_obj_to_binary Mm masterInfo)))]) ∧
    (CScheduler.disconnected self =
       [(self.pid, ErlTerm.tuple1 (ErlTerm.atom "disconnected"))]) ∧
    (∀ (offerId : OfferID),
       CScheduler.offerRescinded Mo self offerId =
         [(self.pid, ErlTerm.tuple2 (ErlTerm.atom "offerRescinded")
            (ErlTerm.binary (pb_obj_to_binary Mo offerId)))]) ∧
    (∀ (status : TaskStatus),
       CScheduler.statusUpdate Mts self status =
         [(self.pid, ErlTerm.tuple2 (ErlTerm.atom "statusUpdate")
            (ErlTerm.binary (pb_obj_to_binary Mts status)))]) ∧
    (∀ (executorId : ExecutorID) (slaveId : SlaveID) (data : String),
       CScheduler.frameworkMessage Me Ms self executorId slaveId data =
         [(self.pid, ErlTerm.tuple4 (ErlTerm.atom "frameworkMessage")
            (ErlTerm.binary (pb_obj_to_binary Me executorId))
            (ErlTerm.binary (pb_obj_to_binary Ms slaveId))
            (ErlTerm.str data))]) ∧
    (∀ (slaveId : SlaveID),
       CScheduler.slaveLost Ms self slaveId =
         [(self.pid, ErlTerm.tuple2 (ErlTerm.atom "slaveLost")
            (ErlTerm.binary (pb_obj_to_binary Ms slaveId)))]) ∧
    (∀ (executorId : ExecutorID) (slaveId : SlaveID) (status : Int),
       CScheduler.executorLost Me Ms self executorId slaveId status =
         [(self.pid, ErlTerm.tuple4 (ErlTerm.atom "executorLost")
            (ErlTerm.binary (pb_obj_to_binary Me executorId))
            (ErlTerm.binary (pb_obj_to_binary Ms slaveId))
            (ErlTerm.int status))]) ∧
    (∀ (errormessage : String),
       CScheduler.error self errormessage =
         [(self.pid, ErlTerm.tuple2 (ErlTerm.atom "error")
            (ErlTerm.str errormessage))]) := by
  refine ⟨?_, ?_, ?_, ?_, ?_, ?_, ?_, ?_, ?_⟩ <;> intros <;> rfl

/-- Claim C8: `sendFrameworkMessage`'s raw data argument is not decoded:
whenever the two id arguments decode, the exact data string supplied is
what reaches the native driver, and any data the driver receives is the
data that was supplied. -/
theorem sendFrameworkMessage_passthrough (Me : PbMessage ExecutorID)
    (Ms : PbMessage SlaveID)
    (drv : ExecutorID → SlaveID → String → SchedulerDriverStatus)
    (executorId slaveId : List Nat) (data : String) :
    (∀ (e : ExecutorID) (s : SlaveID),
       deserialize_data Me executorId = some e →
       deserialize_data Ms slaveId = some s →
       scheduler_sendFrameworkMessage Me Ms drv executorId slaveId data =
         (drv e s data, some (e, s, data))) ∧
    (∀ (e : ExecutorID) (s : SlaveID) (d : String),
       (scheduler_sendFrameworkMessage Me Ms drv executorId slaveId data).2 =
         some (e, s, d) → d = data) := by
  constructor
  · intro e s h1 h2
    unfold scheduler_sendFrameworkMessage
    rw [h1, h2]
  · intro e s d h
    unfold scheduler_sendFrameworkMessage at h
    cases h1 : deserialize_data Me executorId with
    | none => rw [h1] at h; simp at h
    | some e2 =>
      cases h2 : deserialize_data Ms slaveId with
      | none => rw [h1, h2] at h; simp at h
      | some s2 =>
        rw [h1, h2] at h
        simp at h
        exact h.2.2.symm

/-- Concrete instance of `sendFrameworkMessage_passthrough`. -/
theorem sendFrameworkMessage_passthrough_witness :
    scheduler_sendFrameworkMessage ByteValueMsg ByteValueMsg (fun _ _ _ => 2)
      [8, 1] [8, 2] "payload" = (2, some (1, 2, "payload")) ∧
    "payload" = "payload" := by
  have h := sendFrameworkMessage_passthrough ByteValueMsg ByteValueMsg
    (fun _ _ _ => 2) [8, 1] [8, 2] "payload"
  exact ⟨h.1 1 2 rfl rfl, h.2 1 2 "payload" rfl⟩

/-- Claim C9: `scheduler_init` never reports decode failure: even when
the framework-descriptor bytes fail to parse, it still sets the pid,
constructs the callback instance (its `info` left as the
default-constructed object) and the native driver, and returns the fully
populated handle pair, with no error signal at the `init` boundary. -/
theorem init_ignores_decode_failure (Mi : PbMessage FrameworkInfo)
    (Mc : PbMessage Credential) (info0 : FrameworkInfo) (cred0 : Credential)
    (pid : Nat) (info : List Nat) (master : String)
    (credentialssupplied : Bool) (credentials : Option (List Nat))
    (h : deserialize_data Mi info = none) :
    scheduler_init Mi Mc info0 cred0 pid info master credentialssupplied credentials =
      { driver :=
          if credentialssupplied then
            MesosSchedulerDriverCtor.withCred info0 master
              (parseIntoPtr Mc cred0 credentials)
          else MesosSchedulerDriverCtor.withoutCred info0 master
        scheduler := { info := info0, pid := pid } } := by
  cases credentialssupplied with
  | false => simp [scheduler_init, parseInto, h]
  | true => simp [scheduler_init, parseInto, h]

/-- Concrete instance of `init_ignores_decode_failure`: a malformed
descriptor still yields a fully constructed pair (with a well-formed
credential decoded alongside). -/
theorem init_ignores_decode_failure_witness :
    scheduler_init ByteValueMsg ByteValueMsg 0 0 1 [9] "master" true (some [8, 7]) =
      { driver := MesosSchedulerDriverCtor.withCred 0 "master" 7
        scheduler := { info := 0, pid := 1 } } := by
  rw [init_ignores_decode_failure ByteValueMsg ByteValueMsg 0 0 1 [9] "master"
    true (some [8, 7]) rfl]
  rfl

/-- Claim C10: a NULL binary argument behaves exactly like a malformed
one — the pointer overload of `deserialize` reports failure instead of
dereferencing NULL — so the commands whose `filters` argument is not
asserted non-NULL (`declineOffer`, `acceptOffers`, `launchTasks`) return
the rejection status without invoking the native driver when it is
NULL. -/
theorem null_binary_rejected (Mo : PbMessage OfferID) (Mop : PbMessage Operation)
    (Mf : PbMessage Filters) (Mti : PbMessage TaskInfo)
    (drvDecline : OfferID → Filters → SchedulerDriverStatus)
    (drvAccept : List OfferID → List Operation → Filters → SchedulerDriverStatus)
    (drvLaunch : OfferID → List TaskInfo → Filters → SchedulerDriverStatus) :
    deserialize_ptr Mf none = none ∧
    (∀ (offerId : List Nat),
       scheduler_declineOffer Mo Mf drvDecline offerId none = (DRIVER_ABORTED, none)) ∧
    (∀ (offerIds operations : List (List Nat)),
       scheduler_acceptOffers Mo Mop Mf drvAccept offerIds operations none =
         (DRIVER_ABORTED, none)) ∧
    (∀ (offerId : List Nat) (taskInfos : List (List Nat)),
       scheduler_launchTasks Mo Mti Mf drvLaunch offerId taskInfos none =
         (DRIVER_ABORTED, none)) := by
  refine ⟨rfl, ?_, ?_, ?_⟩
  · intro offerId
    unfold scheduler_declineOffer
    cases hO : deserialize_data Mo offerId with
    | none => rfl
    | some o => rfl
  · intro offerIds operations
    unfold scheduler_acceptOffers
    cases hO : deserializeSeq Mo offerIds with
    | none => rfl
    | some os =>
      cases hOp : deserializeSeq Mop operations with
      | none => rfl
      | some ops => rfl
  · intro offerId taskInfos
    unfold scheduler_launchTasks
    cases hO : deserialize_data Mo offerId with
    | none => rfl
    | some o =>
      cases hT : deserializeSeq Mti taskInfos with
      | none => rfl
      | some ts => rfl
